import Mathlib

/-!
Verification of the `pca_analysis` program (a PCA pipeline script) against its
natural-language specification.  The script reads a CSV table, optionally
standardizes or log-transforms the feature matrix, computes a full PCA via the
`sklearn` library, prints two self-checks, writes report files, and plots the
scores in 2D or 3D.

The decomposition itself is performed by the external library (`sklearn.PCA`,
`StandardScaler`, `numpy`), whose code is not part of this repository.  The
engine is therefore modelled from the specification's algorithm (spec §4.2):
a decomposition result is characterised by the predicate `IsPCA`, stating that
the loading rows are orthonormal eigenvectors of the covariance matrix of the
centered data, with eigenvalues sorted descending, scores equal to the centered
data times the transposed loadings, and variance ratios equal to eigenvalues
divided by their total.  The self-check expressions, the preprocessing branch
structure, the filename derivations and the color parsing are translated
directly from the script's source.
-/

namespace PcaSpec

open Matrix

/-! ### Float result values

Applying `numpy.log` to a non-positive float does not raise an exception: it
produces `-inf` (at `0`) or `NaN` (at negative inputs) and emits only a runtime
warning.  `NpVal` embeds this three-way outcome; `finite x` carries the exact
real value. -/

/-- Result of an elementwise `numpy` float operation: a finite real value,
negative infinity, or NaN. -/
inductive NpVal where
  | finite (x : ℝ) : NpVal
  | neginf : NpVal
  | nan : NpVal

/-- Model of `numpy.log` on a real input (IEEE-754 semantics of `log`):
`log x` for positive `x`, `-inf` at `0`, `NaN` for negative inputs.
No exception is ever raised. -/
noncomputable def npLog (x : ℝ) : NpVal :=
  if 0 < x then NpVal.finite (Real.log x) else if x = 0 then NpVal.neginf else NpVal.nan

/-! ### Column statistics and preprocessing -/

/-- Mean of column `j` of a matrix (as computed by `numpy.mean(axis=0)`). -/
noncomputable def colMean {n p : ℕ} (m : Matrix (Fin n) (Fin p) ℝ) (j : Fin p) : ℝ :=
  (∑ i, m i j) / n

/-- The column-centered matrix `X - μ` (spec §4.2 step 1). -/
noncomputable def centered {n p : ℕ} (m : Matrix (Fin n) (Fin p) ℝ) : Matrix (Fin n) (Fin p) ℝ :=
  Matrix.of fun i j => m i j - colMean m j

/-- Population variance (`ddof = 0`) of column `j`, as computed by
`numpy.var(axis=0)` and used by `StandardScaler`. -/
noncomputable def colVar {n p : ℕ} (m : Matrix (Fin n) (Fin p) ℝ) (j : Fin p) : ℝ :=
  (∑ i, (m i j - colMean m j) ^ 2) / n

/-- The per-column divisor used by `sklearn.preprocessing.StandardScaler`:
the population standard deviation, except that a zero standard deviation is
replaced by `1` (the library's `_handle_zeros_in_scale`), so that constant
columns are mapped to zero instead of raising an error. -/
noncomputable def stdScale {n p : ℕ} (m : Matrix (Fin n) (Fin p) ℝ) (j : Fin p) : ℝ :=
  if colVar m j = 0 then 1 else Real.sqrt (colVar m j)

/-- Model of `StandardScaler().fit_transform` (src line 36): subtract the
column mean and divide by `stdScale`. -/
noncomputable def standardize {n p : ℕ} (m : Matrix (Fin n) (Fin p) ℝ) :
    Matrix (Fin n) (Fin p) ℝ :=
  Matrix.of fun i j => (m i j - colMean m j) / stdScale m j

/-- Model of `dfData.apply(np.log)` (src line 40): elementwise `numpy.log`,
with no validation of the entries. -/
noncomputable def logTransform {n p : ℕ} (m : Matrix (Fin n) (Fin p) ℝ) :
    Matrix (Fin n) (Fin p) NpVal :=
  Matrix.of fun i j => npLog (m i j)

/-- The preprocessing branch of `main` (src lines 34-40): `if fl_std: ...
elif fl_log: ...`.  Standardization and log transform are mutually exclusive,
with standardization taking the branch when both flags are set.  Untransformed
data is carried through as finite float values. -/
noncomputable def preprocess {n p : ℕ} (fl_std fl_log : Bool)
    (m : Matrix (Fin n) (Fin p) ℝ) : Matrix (Fin n) (Fin p) NpVal :=
  if fl_std then (standardize m).map NpVal.finite
  else if fl_log then logTransform m
  else m.map NpVal.finite

/-! ### The PCA engine model

`getPCA` (src lines 99-122) calls `PCA().fit_transform`, which computes all
`K = min(N, P)` components.  The library is external to the repository, so the
result is modelled from the spec (§4.2): `IsPCA data r` states exactly the
defining properties of a full PCA of `data`. -/

/-- Covariance matrix of the centered data, `Xᵀ X / (N - 1)` (spec §4.2
step 2). -/
noncomputable def covMatrix {n p : ℕ} (m : Matrix (Fin n) (Fin p) ℝ) :
    Matrix (Fin p) (Fin p) ℝ :=
  ((n : ℝ) - 1)⁻¹ • ((centered m)ᵀ * centered m)

/-- Output of `PCA().fit_transform` and the fitted attributes used by the
script: `scores` is `X_r`, `expVar` is `explained_variance_`, `evr` is
`explained_variance_ratio_`, `loadings` is `components_`.  The script uses the
default `PCA()`, so `k = min n p`. -/
structure PCAResult (n p k : ℕ) where
  scores : Matrix (Fin n) (Fin k) ℝ
  expVar : Fin k → ℝ
  evr : Fin k → ℝ
  loadings : Matrix (Fin k) (Fin p) ℝ

/-- Modelled from the spec: the defining properties of the PCA decomposition
computed by the external `sklearn.decomposition.PCA` (spec §4.2 steps 1-6),
which is not part of this repository's source.  Loading rows are orthonormal
eigenvectors of the covariance matrix of the centered data, eigenvalues are
sorted descending, the scores are the centered data projected on the loadings,
and each variance ratio is its eigenvalue divided by the total. -/
structure IsPCA {n p k : ℕ} (m : Matrix (Fin n) (Fin p) ℝ) (r : PCAResult n p k) : Prop where
  unitNorm : ∀ i, ∑ j, r.loadings i j ^ 2 = 1
  orthog : ∀ i i', i ≠ i' → ∑ j, r.loadings i j * r.loadings i' j = 0
  eigen : ∀ i, (covMatrix m).mulVec (r.loadings i) = r.expVar i • r.loadings i
  sorted : ∀ i i' : Fin k, i ≤ i' → r.expVar i' ≤ r.expVar i
  scoresDef : r.scores = centered m * (r.loadings)ᵀ
  evrDef : ∀ i, r.evr i = r.expVar i / ∑ i', r.expVar i'

/-! ### The self-checks printed by `getPCA` -/

/-- The quantity printed by the unit-norm self-check (src line 111):
`np.linalg.norm(pca.components_.T, axis=0)`, i.e. for each component index
`i` the Euclidean norm of column `i` of the transposed loadings. -/
noncomputable def coeffVectorNorms {n p k : ℕ} (r : PCAResult n p k) (i : Fin k) : ℝ :=
  Real.sqrt (∑ a, ((r.loadings)ᵀ a i) ^ 2)

/-- Model of `numpy.allclose` with its default tolerances
(`rtol = 1e-5`, `atol = 1e-8`): elementwise `|a - b| ≤ atol + rtol * |b|`. -/
def npAllclose {n k : ℕ} (a b : Matrix (Fin n) (Fin k) ℝ) : Prop :=
  ∀ i j, |a i j - b i j| ≤ 1e-8 + 1e-5 * |b i j|

/-- The reconstruction self-check of `getPCA` (src lines 117-118):
`np.allclose(dfData.values.dot(pca.components_.T), pca.fit_transform(dfData.values))`.
The left side uses the RAW data (`dfData.values`, not the centered matrix);
the right side re-runs `fit_transform` on the identical input, which is
deterministic and returns the same scores, embedded here as `r.scores`. -/
def reconstructionCheck {n p k : ℕ} (m : Matrix (Fin n) (Fin p) ℝ)
    (r : PCAResult n p k) : Prop :=
  npAllclose (m * (r.loadings)ᵀ) r.scores

/-! ### A concrete run: two samples of one feature, values 0 and 2

This input has column mean `1`, centered matrix `(-1, 1)ᵀ`, covariance `2`,
and (with the library's sign convention) loadings `(-1)`, scores `(1, -1)ᵀ`,
explained variance `2` and variance ratio `1`. -/

/-- A concrete valid input: `N = 2` samples, `P = 1` feature. -/
noncomputable def data0 : Matrix (Fin 2) (Fin 1) ℝ := !![0; 2]

/-- The PCA of `data0`. -/
noncomputable def pca0 : PCAResult 2 1 1 :=
  { scores := !![1; -1], expVar := ![2], evr := ![1], loadings := !![-1] }

/-- A valid input (two samples, one feature, both entries `1`) whose centered
matrix is zero: every feature is constant. -/
noncomputable def dataC3 : Matrix (Fin 2) (Fin 1) ℝ := !![1; 1]

/-- The degenerate PCA of `dataC3`: the only eigenvalue is forced to `0`, and
the library computes `explained_variance_ratio_` as `0 / 0` (a NaN warning at
run time; `0` in the real-number model). -/
noncomputable def pcaC3 : PCAResult 2 1 1 :=
  { scores := !![0; 0], expVar := ![0], evr := ![0], loadings := !![1] }

/-! ### Input validation (C6)

The spec names `InsufficientSamplesError` (N < 2), `InsufficientFeaturesError`
(P < 1) and `NumericalInstabilityError`.  `getPCA` (src lines 99-122) contains
no input validation whatsoever: its body fits the model, prints the two
diagnostic strings and returns.  None of these error names occurs anywhere in
the source. -/

/-- The engine errors named by the specification (§4.2). -/
inductive EngineError where
  | insufficientSamples : EngineError
  | insufficientFeatures : EngineError
  | numericalInstability : EngineError

/-- Translated from `getPCA` (src lines 99-122): the function performs no
sample-count or feature-count test and can therefore never signal an engine
error, whatever the shape of its input. -/
def getPCAValidation (_n _p : ℕ) : Option EngineError := none

/-- A valid-shaped but single-sample input (`N = 1 < 2`). -/
noncomputable def dataN1 : Matrix (Fin 1) (Fin 1) ℝ := !![5]

/-- The degenerate decomposition the engine yields on `dataN1`: the centered
matrix is zero, the eigenvalue is `0` (the library divides by `N - 1 = 0`,
a NaN warning at run time). -/
noncomputable def pcaN1 : PCAResult 1 1 1 :=
  { scores := !![0], expVar := ![0], evr := ![0], loadings := !![1] }

/-! ### Plotting column access (C10)

The scores matrix `X_r` has `K = min(N, P)` columns.  The 3D branch of
`plotPCA` (src lines 196-205) eagerly reads `X_r[:, 0]`, `X_r[:, 1]` and
`X_r[:, 2]`; a `numpy` column read with an index at or beyond the column count
raises `IndexError`, modelled as `none`. -/

/-- Model of the `numpy` column read `X_r[:, j]` (nonnegative index): the
column as a vector if `j` is in bounds, otherwise `none` (`IndexError`). -/
def scoresColumn {n k : ℕ} (X : Matrix (Fin n) (Fin k) ℝ) (j : ℕ) :
    Option (Fin n → ℝ) :=
  if h : j < k then some (fun i => X i ⟨j, h⟩) else none

/-- The three column reads performed by the 3D branch of `plotPCA`
(src lines 198-199), failing at the first out-of-bounds read. -/
def plot3DColumns {n k : ℕ} (X : Matrix (Fin n) (Fin k) ℝ) :
    Option ((Fin n → ℝ) × (Fin n → ℝ) × (Fin n → ℝ)) := do
  let c0 ← scoresColumn X 0
  let c1 ← scoresColumn X 1
  let c2 ← scoresColumn X 2
  pure (c0, c1, c2)

/-! ### Derived file names (C9)

Python strings are embedded as `List Char`.  `str.replace` scans left to
right, replacing every non-overlapping occurrence of the pattern. -/

/-- Model of Python `s.replace(pat, rep)` for a nonempty pattern: scan left to
right and replace each non-overlapping occurrence. -/
def pyReplace (s pat rep : List Char) : List Char :=
  match s with
  | [] => []
  | c :: cs =>
    if h : pat ≠ [] ∧ pat.isPrefixOf (c :: cs) then
      rep ++ pyReplace ((c :: cs).drop pat.length) pat rep
    else
      c :: pyReplace cs pat rep
termination_by s.length
decreasing_by
· have hlen : 0 < pat.length := List.length_pos.mpr h.1
  simp [List.length_drop]
  omega
· simp

/-- The transformed csv path of `main` (src lines 34-40): with the `-std` flag
the path gets `-std` inserted before `.csv`; otherwise, with the `-log` flag,
it gets `-log`; otherwise it is unchanged. -/
def transformedCsvPath (fl_std fl_log : Bool) (path : List Char) : List Char :=
  if fl_std then pyReplace path (".csv".data) ("-std.csv".data)
  else if fl_log then pyReplace path (".csv".data) ("-log.csv".data)
  else path

/-- Loadings file name (src line 166): `csvPath.replace(".csv", "_loadings.csv")`. -/
def loadingsCsvName (csvPath : List Char) : List Char :=
  pyReplace csvPath (".csv".data) ("_loadings.csv".data)

/-- Info file name (src line 169): `csvPath.replace(".csv", "_info.txt")`. -/
def infoTxtName (csvPath : List Char) : List Char :=
  pyReplace csvPath (".csv".data) ("_info.txt".data)

/-- Figure file name (src lines 207 and 219): `_3D.png` in the 3D branch,
`_2D.png` otherwise. -/
def pngPathName (proj3D : Bool) (csvPath : List Char) : List Char :=
  if proj3D then pyReplace csvPath (".csv".data) ("_3D.png".data)
  else pyReplace csvPath (".csv".data) ("_2D.png".data)

/-- Legend file name (src line 236): `pngPath.replace(".png", "_legend.png")`. -/
def legendPngName (pngPath : List Char) : List Char :=
  pyReplace pngPath (".png".data) ("_legend.png".data)

/-! ### Color parsing (C7)

`makeColor` (src lines 243-248) is `[float(col)/255. for col in colorRGB.split(":")]`:
it splits on `:` and scales each token, with no check of the token count or of
the value range. -/

/-- Model of Python `str.split(sep)` for a single-character separator. -/
def pySplit (sep : Char) : List Char → List (List Char)
  | [] => [[]]
  | c :: cs =>
    match pySplit sep cs with
    | [] => [[c]]
    | t :: ts => if c = sep then [] :: t :: ts else (c :: t) :: ts

/-- Decimal value of a digit string. -/
def digitsVal (t : List Char) : ℕ :=
  t.foldl (fun acc c => 10 * acc + (c.toNat - 48)) 0

/-- Model of Python `float(token)` restricted to the unsigned decimal integer
tokens of the color format: a nonempty all-digit token parses to its value;
any other token is mapped to `none` (for non-numeric tokens the original
raises the underlying `ValueError`; Python's acceptance of signs, decimal
points and exponents is outside the color format and not modelled). -/
def pyFloatOfDigits (t : List Char) : Option ℚ :=
  if t ≠ [] ∧ t.all (fun c => c.isDigit) then some (digitsVal t : ℚ) else none

/-- The left-to-right evaluation of the list comprehension of src line 248:
each token is converted, and a conversion error aborts the whole call. -/
def tokensToFloats : List (List Char) → Option (List ℚ)
  | [] => some []
  | t :: ts =>
    match pyFloatOfDigits t, tokensToFloats ts with
    | some v, some vs => some (v :: vs)
    | _, _ => none

/-- Model of `makeColor` (src line 248): split the color string on `:` and
divide each parsed token by `255`.  `none` models the uncaught conversion
error; there is no count or range validation. -/
def makeColor (s : List Char) : Option (List ℚ) :=
  (tokensToFloats (pySplit ':' s)).map (List.map fun v => v / 255)

/-! ### Helper lemmas -/
lemma colMean_data0 (j : Fin 1) : colMean data0 j = 1 := by
  fin_cases j
  norm_num [colMean, data0, Fin.sum_univ_succ]

lemma centered_data0 : centered data0 = !![-1; 1] := by
  ext i j
  fin_cases i <;> fin_cases j <;>
    norm_num [centered, colMean, data0, Fin.sum_univ_succ]

lemma covMatrix_data0 : covMatrix data0 = !![2] := by
  ext i j
  fin_cases i
  fin_cases j
  norm_num [covMatrix, centered_data0, Matrix.mul_apply, Fin.sum_univ_succ]

lemma pca0_valid : IsPCA data0 pca0 := by
  constructor
  · intro i
    fin_cases i
    norm_num [pca0, Fin.sum_univ_succ]
  · intro i i' h
    fin_cases i <;> fin_cases i' <;> simp_all
  · intro i
    fin_cases i
    funext j
    fin_cases j
    norm_num [covMatrix_data0, pca0, Matrix.mulVec, Matrix.dotProduct, Fin.sum_univ_succ]
  · intro i i' _
    fin_cases i <;> fin_cases i' <;> simp
  · ext i j
    fin_cases i <;> fin_cases j <;>
      norm_num [pca0, centered_data0, Matrix.mul_apply, Fin.sum_univ_succ]
  · intro i
    fin_cases i
    norm_num [pca0, Fin.sum_univ_succ]

/-- Each explained variance is nonnegative: it is `1/(N-1)` times the squared
norm of the centered data projected on the corresponding unit loading. -/
lemma expVar_nonneg {n p k : ℕ} {m : Matrix (Fin n) (Fin p) ℝ} {r : PCAResult n p k}
    (h : IsPCA m r) (hn : 1 ≤ n) (i : Fin k) : 0 ≤ r.expVar i := by
  have hvv : r.loadings i ⬝ᵥ r.loadings i = 1 := by
    simpa [Matrix.dotProduct, sq] using h.unitNorm i
  have hdot := congrArg (fun w => r.loadings i ⬝ᵥ w) (h.eigen i)
  simp only [Matrix.dotProduct_smul, smul_eq_mul, hvv, mul_one] at hdot
  have hquad : r.loadings i ⬝ᵥ ((centered m)ᵀ * centered m).mulVec (r.loadings i)
      = (centered m).mulVec (r.loadings i) ⬝ᵥ (centered m).mulVec (r.loadings i) := by
    calc r.loadings i ⬝ᵥ ((centered m)ᵀ * centered m).mulVec (r.loadings i)
        = Matrix.vecMul (r.loadings i) ((centered m)ᵀ * centered m) ⬝ᵥ r.loadings i :=
          Matrix.dotProduct_mulVec _ _ _
      _ = Matrix.vecMul (Matrix.vecMul (r.loadings i) (centered m)ᵀ) (centered m)
            ⬝ᵥ r.loadings i := by rw [Matrix.vecMul_vecMul]
      _ = Matrix.vecMul ((centered m).mulVec (r.loadings i)) (centered m)
            ⬝ᵥ r.loadings i := by rw [Matrix.vecMul_transpose]
      _ = (centered m).mulVec (r.loadings i) ⬝ᵥ (centered m).mulVec (r.loadings i) :=
          (Matrix.dotProduct_mulVec _ _ _).symm
  have hval : r.expVar i = ((n : ℝ) - 1)⁻¹ *
      ((centered m).mulVec (r.loadings i) ⬝ᵥ (centered m).mulVec (r.loadings i)) := by
    rw [← hdot, covMatrix, Matrix.smul_mulVec_assoc, Matrix.dotProduct_smul,
      smul_eq_mul, hquad]
  rw [hval]
  have hn' : (1 : ℝ) ≤ n := by exact_mod_cast hn
  apply mul_nonneg
  · exact inv_nonneg.mpr (by linarith)
  · exact Finset.sum_nonneg fun j _ => mul_self_nonneg _

lemma centered_dataC3 : centered dataC3 = 0 := by
  ext i j
  fin_cases i <;> fin_cases j <;>
    norm_num [centered, colMean, dataC3, Fin.sum_univ_succ]

lemma pcaC3_valid : IsPCA dataC3 pcaC3 := by
  constructor
  · intro i
    fin_cases i
    norm_num [pcaC3, Fin.sum_univ_succ]
  · intro i i' h
    fin_cases i <;> fin_cases i' <;> simp_all
  · intro i
    fin_cases i
    funext j
    fin_cases j
    norm_num [covMatrix, centered_dataC3, pcaC3, Matrix.mulVec, Matrix.dotProduct,
      Fin.sum_univ_succ, Matrix.mul_apply]
  · intro i i' _
    fin_cases i <;> fin_cases i' <;> simp
  · ext i j
    fin_cases i <;> fin_cases j <;>
      norm_num [pcaC3, centered_dataC3, Matrix.mul_apply, Fin.sum_univ_succ]
  · intro i
    fin_cases i
    norm_num [pcaC3, Fin.sum_univ_succ]

/-- A column whose population variance is zero consists of entries equal to
the column mean. -/
lemma colVar_zero_entries {n p : ℕ} (m : Matrix (Fin n) (Fin p) ℝ) (j : Fin p)
    (h : colVar m j = 0) (i : Fin n) : m i j = colMean m j := by
  have hn : (0 : ℝ) < n := by exact_mod_cast i.pos
  have hsum : (∑ a, (m a j - colMean m j) ^ 2) = 0 := by
    rcases div_eq_zero_iff.mp h with h0 | h0
    · exact h0
    · exact absurd h0 (ne_of_gt hn)
  have hterm := (Finset.sum_eq_zero_iff_of_nonneg
    (fun a _ => sq_nonneg (m a j - colMean m j))).mp hsum i (Finset.mem_univ i)
  have := pow_eq_zero_iff (n := 2) (by norm_num) |>.mp hterm
  linarith [this]

lemma centered_dataN1 : centered dataN1 = 0 := by
  ext i j
  fin_cases i
  fin_cases j
  norm_num [centered, colMean, dataN1, Fin.sum_univ_succ]

lemma pcaN1_valid : IsPCA dataN1 pcaN1 := by
  constructor
  · intro i
    fin_cases i
    norm_num [pcaN1, Fin.sum_univ_succ]
  · intro i i' h
    fin_cases i <;> fin_cases i' <;> simp_all
  · intro i
    fin_cases i
    funext j
    fin_cases j
    norm_num [covMatrix, centered_dataN1, pcaN1, Matrix.mulVec, Matrix.dotProduct,
      Fin.sum_univ_succ, Matrix.mul_apply]
  · intro i i' _
    fin_cases i <;> fin_cases i' <;> simp
  · ext i j
    fin_cases i <;> fin_cases j <;>
      norm_num [pcaN1, centered_dataN1, Matrix.mul_apply, Fin.sum_univ_succ]
  · intro i
    fin_cases i
    norm_num [pcaN1, Fin.sum_univ_succ]

lemma plot3DColumns_eq_none_iff {n k : ℕ} (X : Matrix (Fin n) (Fin k) ℝ) :
    plot3DColumns X = none ↔ k < 3 := by
  by_cases h2 : 2 < k
  · have h1 : 1 < k := by omega
    have h0 : 0 < k := by omega
    simp [plot3DColumns, scoresColumn, h0, h1, h2]
    omega
  · by_cases h0 : 0 < k <;> by_cases h1 : 1 < k <;>
      simp [plot3DColumns, scoresColumn, h0, h1, h2] <;> omega

lemma isPrefixOf_self (l : List Char) : l.isPrefixOf l = true := by
  induction l with
  | nil => rfl
  | cons a as ih => simp [List.isPrefixOf, ih]

/-- If the pattern occurs in `base ++ pat` only as the final suffix, then
`replace` rewrites exactly that occurrence. -/
lemma pyReplace_append_of_unique (pat rep : List Char) (hne : pat ≠ []) :
    ∀ base : List Char,
      (∀ i, i < base.length → ¬ pat.isPrefixOf ((base ++ pat).drop i)) →
      pyReplace (base ++ pat) pat rep = base ++ rep := by
  intro base
  induction base with
  | nil =>
    intro _
    cases pat with
    | nil => exact absurd rfl hne
    | cons c cs =>
      rw [List.nil_append, List.nil_append, pyReplace]
      rw [dif_pos ⟨hne, isPrefixOf_self (c :: cs)⟩]
      rw [List.drop_length, pyReplace, List.append_nil]
  | cons b bs ih =>
    intro H
    have h0 : ¬ pat.isPrefixOf (b :: (bs ++ pat)) := by
      have := H 0 (by simp)
      simpa using this
    have hrest : ∀ i, i < bs.length → ¬ pat.isPrefixOf ((bs ++ pat).drop i) := by
      intro i hi
      have := H (i + 1) (by simp; omega)
      simpa using this
    rw [List.cons_append, pyReplace]
    rw [dif_neg (by simp [h0])]
    rw [ih hrest, List.cons_append]

/-- Packaging of `pyReplace_append_of_unique` with the regrouping of the input
and output strings. -/
lemma pyReplace_build (pat rep base : List Char) {s out : List Char} (hne : pat ≠ [])
    (H : ∀ i, i < base.length → ¬ pat.isPrefixOf ((base ++ pat).drop i))
    (hs : s = base ++ pat) (hout : out = base ++ rep) :
    pyReplace s pat rep = out := by
  rw [hs, hout]
  exact pyReplace_append_of_unique pat rep hne base H

lemma append_split (base : List Char) {u : List Char} (v w : List Char)
    (h : u = v ++ w) : base ++ u = (base ++ v) ++ w := by
  rw [h, List.append_assoc]

lemma pySplit_ne_nil (sep : Char) (l : List Char) : pySplit sep l ≠ [] := by
  cases l with
  | nil => simp [pySplit]
  | cons c cs =>
    rw [pySplit]
    rcases pySplit sep cs with _ | ⟨t, ts⟩
    · simp
    · by_cases h : c = sep <;> simp [h]

lemma pySplit_no_sep (sep : Char) (t : List Char) (h : sep ∉ t) :
    pySplit sep t = [t] := by
  induction t with
  | nil => rfl
  | cons c cs ih =>
    have hc : c ≠ sep := fun hc => h (hc ▸ List.mem_cons_self c cs)
    have hcs : sep ∉ cs := fun hm => h (List.mem_cons_of_mem c hm)
    rw [pySplit, ih hcs]
    simp [hc]

lemma pySplit_append (sep : Char) (t rest : List Char) (h : sep ∉ t) :
    pySplit sep (t ++ sep :: rest) = t :: pySplit sep rest := by
  induction t with
  | nil =>
    rw [List.nil_append, pySplit]
    obtain ⟨u, us, hu⟩ : ∃ u us, pySplit sep rest = u :: us := by
      rcases hr : pySplit sep rest with _ | ⟨u, us⟩
      · exact absurd hr (pySplit_ne_nil sep rest)
      · exact ⟨u, us, rfl⟩
    rw [hu]
    simp
  | cons c cs ih =>
    have hc : c ≠ sep := fun hc => h (hc ▸ List.mem_cons_self c cs)
    have hcs : sep ∉ cs := fun hm => h (List.mem_cons_of_mem c hm)
    rw [List.cons_append, pySplit, ih hcs]
    simp [hc]

lemma pyFloatOfDigits_nonneg (t : List Char) (v : ℚ)
    (h : pyFloatOfDigits t = some v) : 0 ≤ v := by
  rw [pyFloatOfDigits] at h
  by_cases hc : t ≠ [] ∧ t.all (fun c => c.isDigit)
  · rw [if_pos hc] at h
    obtain rfl : _ = v := Option.some_injective _ h
    positivity
  · rw [if_neg hc] at h
    exact absurd h (by simp)

/-- Evaluation rule for `pyFloatOfDigits` on a concrete digit token. -/
lemma pyFloatOfDigits_eq_some (t : List Char) (m : ℕ)
    (ht : t ≠ [] ∧ t.all (fun c => c.isDigit)) (hv : digitsVal t = m) :
    pyFloatOfDigits t = some (m : ℚ) := by
  rw [pyFloatOfDigits, if_pos ht, hv]

lemma pyFloat_255 : pyFloatOfDigits ("255".data) = some 255 := by
  have h := pyFloatOfDigits_eq_some ("255".data) 255 (by decide) (by decide)
  rw [h]
  norm_num

lemma pyFloat_0 : pyFloatOfDigits ("0".data) = some 0 := by
  have h := pyFloatOfDigits_eq_some ("0".data) 0 (by decide) (by decide)
  rw [h]
  norm_num

/-! ### Claim theorems -/

/-- C1: the reconstruction identity `centered X · loadingsᵀ = scores` does hold
for a valid decomposition, but it is NOT what the engine's self-check verifies:
the check at src lines 117-118 multiplies the RAW (uncentered) data by the
transposed loadings and compares with a re-fitted transform.  On the valid
input `data0 = (0, 2)ᵀ`, whose column mean is nonzero, the centered identity
holds exactly while the code's check fails (the entry-wise gap is `1`, far
beyond `numpy.allclose` tolerance). -/
theorem reconstruction_check_uses_raw_data :
    IsPCA data0 pca0 ∧ centered data0 * (pca0.loadings)ᵀ = pca0.scores ∧
      ¬ reconstructionCheck data0 pca0 := by
  refine ⟨pca0_valid, pca0_valid.scoresDef.symm, fun hc => ?_⟩
  have h := hc 0 0
  norm_num [data0, pca0, Matrix.mul_apply, Fin.sum_univ_succ] at h

/-- C2: for every valid decomposition, the unit-norm self-check quantity of
src line 111 (`np.linalg.norm(pca.components_.T, axis=0)`) is exactly the
Euclidean norm of the corresponding ROW of the loadings, and it equals `1.0`
within tolerance `1e-8`. -/
theorem unit_norm_check_rows {n p k : ℕ} (m : Matrix (Fin n) (Fin p) ℝ)
    (r : PCAResult n p k) (h : IsPCA m r) (i : Fin k) :
    coeffVectorNorms r i = Real.sqrt (∑ a, r.loadings i a ^ 2) ∧
      |coeffVectorNorms r i - 1| ≤ 1e-8 := by
  have hrow : coeffVectorNorms r i = Real.sqrt (∑ a, r.loadings i a ^ 2) := by
    simp [coeffVectorNorms, Matrix.transpose_apply]
  refine ⟨hrow, ?_⟩
  rw [hrow, h.unitNorm i, Real.sqrt_one]
  norm_num

/-- Witness for C2 at the concrete input `data0`. -/
theorem unit_norm_check_rows_witness :
    coeffVectorNorms pca0 0 = Real.sqrt (∑ a, pca0.loadings 0 a ^ 2) ∧
      |coeffVectorNorms pca0 0 - 1| ≤ 1e-8 :=
  unit_norm_check_rows data0 pca0 pca0_valid 0

/-- C3 (amended): for every valid input whose total explained variance is
positive, the explained variance ratios are nonnegative, descending and sum
to `1` (exactly, in the real-number model); on an input whose centered matrix
is zero the denominator is zero and the property fails (see the
counterexample). -/
theorem evr_sums_to_one {n p k : ℕ} (m : Matrix (Fin n) (Fin p) ℝ) (r : PCAResult n p k)
    (h : IsPCA m r) (hn : 1 ≤ n) (hpos : 0 < ∑ i, r.expVar i) :
    (∑ i, r.evr i = 1) ∧ (∀ i, 0 ≤ r.evr i) ∧
      (∀ i i' : Fin k, i ≤ i' → r.evr i' ≤ r.evr i) := by
  have hS : (∑ i, r.expVar i) ≠ 0 := ne_of_gt hpos
  refine ⟨?_, fun i => ?_, fun i i' hii => ?_⟩
  · calc ∑ i, r.evr i = ∑ i, r.expVar i / ∑ i', r.expVar i' :=
        Finset.sum_congr rfl fun i _ => h.evrDef i
      _ = (∑ i, r.expVar i) / ∑ i', r.expVar i' := by rw [← Finset.sum_div]
      _ = 1 := div_self hS
  · rw [h.evrDef i]
    exact div_nonneg (expVar_nonneg h hn i) (le_of_lt hpos)
  · rw [h.evrDef i, h.evrDef i']
    exact (div_le_div_iff_of_pos_right hpos).mpr (h.sorted i i' hii)

/-- Witness for C3 (amended) at the concrete input `data0`, whose total
explained variance is `2`. -/
theorem evr_sums_to_one_witness :
    (∑ i, pca0.evr i = 1) ∧ (∀ i, 0 ≤ pca0.evr i) ∧
      (∀ i i' : Fin 1, i ≤ i' → pca0.evr i' ≤ pca0.evr i) :=
  evr_sums_to_one data0 pca0 pca0_valid (by norm_num)
    (by norm_num [pca0, Fin.sum_univ_succ])

/-- C3 counterexample: on the valid input `dataC3` (N = 2 ≥ 2, P = 1 ≥ 1, no
missing entries) every feature is constant, the total explained variance is
`0`, and the variance ratios do not sum to `1` within `1e-6` (the library
produces `0/0`). -/
theorem evr_sum_fails_zero_variance :
    IsPCA dataC3 pcaC3 ∧ ¬ |(∑ i, pcaC3.evr i) - 1| ≤ 1e-6 := by
  refine ⟨pcaC3_valid, ?_⟩
  norm_num [pcaC3, Fin.sum_univ_succ]

/-- C4 counterexample: the log-transform step (src line 40) performs no
validation and raises nothing.  On a matrix with a zero and a negative entry
it returns a matrix containing `-inf` and `NaN`, which flow on into the
decomposition; there is no `NonPositiveValueError` anywhere in the program. -/
theorem logTransform_propagates_nonfinite :
    logTransform !![(0 : ℝ), -1; 1, 2] 0 0 = NpVal.neginf ∧
      logTransform !![(0 : ℝ), -1; 1, 2] 0 1 = NpVal.nan ∧
      logTransform !![(0 : ℝ), -1; 1, 2] 1 0 = NpVal.finite (Real.log 1) := by
  refine ⟨?_, ?_, ?_⟩ <;> norm_num [logTransform, npLog]

/-- C4 (amended): the log-transform step applies `numpy.log` elementwise with
no validation: positive entries are mapped to their natural logarithm, a zero
entry yields `-inf` and a negative entry yields `NaN`, silently propagated
(no `NonPositiveValueError` exists in the code). -/
theorem logTransform_no_validation {n p : ℕ} (m : Matrix (Fin n) (Fin p) ℝ)
    (i : Fin n) (j : Fin p) :
    (0 < m i j → logTransform m i j = NpVal.finite (Real.log (m i j))) ∧
      (m i j = 0 → logTransform m i j = NpVal.neginf) ∧
      (m i j < 0 → logTransform m i j = NpVal.nan) := by
  refine ⟨fun h => ?_, fun h => ?_, fun h => ?_⟩
  · simp [logTransform, npLog, h]
  · norm_num [logTransform, npLog, h]
  · simp [logTransform, npLog, not_lt_of_gt h, h.ne]

/-- Witness for C4 (amended) on the concrete row `(2, 0, -3)`. -/
theorem logTransform_no_validation_witness :
    logTransform !![(2 : ℝ), 0, -3] 0 0 = NpVal.finite (Real.log (!![(2 : ℝ), 0, -3] 0 0)) ∧
      logTransform !![(2 : ℝ), 0, -3] 0 1 = NpVal.neginf ∧
      logTransform !![(2 : ℝ), 0, -3] 0 2 = NpVal.nan :=
  ⟨(logTransform_no_validation _ 0 0).1 (by norm_num),
    (logTransform_no_validation _ 0 1).2.1 (by norm_num),
    (logTransform_no_validation _ 0 2).2.2 (by norm_num)⟩

/-- C5 (amended): standardization subtracts the column mean and divides by the
population standard deviation, except that a zero standard deviation is
replaced by `1` (the library's behaviour), so a constant column is mapped to
zeros; no `DegenerateFeatureError` is raised anywhere. -/
theorem standardize_no_degenerate_error {n p : ℕ} (m : Matrix (Fin n) (Fin p) ℝ)
    (j : Fin p) :
    (colVar m j = 0 → ∀ i, standardize m i j = 0) ∧
      (colVar m j ≠ 0 → ∀ i,
        standardize m i j = (m i j - colMean m j) / Real.sqrt (colVar m j)) := by
  constructor
  · intro h i
    have hentry := colVar_zero_entries m j h i
    simp [standardize, stdScale, h, hentry]
  · intro h i
    simp [standardize, stdScale, h]

/-- Witness for C5 (amended): a constant column is mapped to `0`, while the
column of `data0` (variance `1`) is standardized by the usual formula. -/
theorem standardize_no_degenerate_error_witness :
    standardize dataC3 0 0 = 0 ∧
      standardize data0 0 0 = (data0 0 0 - colMean data0 0) / Real.sqrt (colVar data0 0) :=
  ⟨(standardize_no_degenerate_error dataC3 0).1
      (by norm_num [colVar, colMean, dataC3, Fin.sum_univ_succ]) 0,
    (standardize_no_degenerate_error data0 0).2
      (by norm_num [colVar, colMean, data0, Fin.sum_univ_succ]) 0⟩

/-- C5 counterexample: the input `dataC3` has a feature column with zero
population standard deviation, yet standardization succeeds and returns zeros
for that column — the step never fails with `DegenerateFeatureError` (no such
error exists in the program; the library substitutes scale `1`). -/
theorem standardize_constant_column_no_error :
    colVar dataC3 0 = 0 ∧ standardize dataC3 0 0 = 0 ∧ standardize dataC3 1 0 = 0 := by
  have h0 : colVar dataC3 0 = 0 := by
    norm_num [colVar, colMean, dataC3, Fin.sum_univ_succ]
  refine ⟨h0, ?_, ?_⟩ <;>
    norm_num [standardize, stdScale, h0, colMean, dataC3, Fin.sum_univ_succ]

/-- C6 counterexample: with `N = 1 < 2` samples the code does not produce
`InsufficientSamplesError` (there is no validation at all), and a single-sample
input admits a (degenerate) decomposition; with `P = 0 < 1` features the code
likewise produces no `InsufficientFeaturesError`. -/
theorem getPCA_accepts_degenerate_shapes :
    getPCAValidation 1 1 = none ∧ getPCAValidation 5 0 = none ∧ IsPCA dataN1 pcaN1 :=
  ⟨rfl, rfl, pcaN1_valid⟩

/-- C6 (amended): `getPCA` performs no precondition checking: for every input
shape it signals no engine error.  (An empty-feature input fails only inside
the external library's generic array validation, not with the named error; a
single-sample input proceeds to a degenerate decomposition.) -/
theorem getPCA_no_validation : ∀ n p : ℕ, getPCAValidation n p = none :=
  fun _ _ => rfl

/-- C9: derived output filenames.  For an input path `base ++ ".csv"` in which
the extension patterns occur only at the stated final positions (the
hypotheses; any ordinary filename satisfies them), a standardized run inserts
`-std` and a log run inserts `-log` right after `base` in every derived name
(the loadings CSV, the info text file, the 2D/3D figure and the legend), and
with no transform the derived names are built from the unsuffixed base. -/
theorem derived_filenames_insert_transform_suffix (base : List Char)
    (Hc : ∀ i, i < base.length →
      ¬ (".csv".data).isPrefixOf ((base ++ (".csv".data)).drop i))
    (Hstd : ∀ i, i < (base ++ ("-std".data)).length →
      ¬ (".csv".data).isPrefixOf (((base ++ ("-std".data)) ++ (".csv".data)).drop i))
    (Hlog : ∀ i, i < (base ++ ("-log".data)).length →
      ¬ (".csv".data).isPrefixOf (((base ++ ("-log".data)) ++ (".csv".data)).drop i))
    (Hp3s : ∀ i, i < (base ++ ("-std_3D".data)).length →
      ¬ (".png".data).isPrefixOf (((base ++ ("-std_3D".data)) ++ (".png".data)).drop i))
    (Hp2s : ∀ i, i < (base ++ ("-std_2D".data)).length →
      ¬ (".png".data).isPrefixOf (((base ++ ("-std_2D".data)) ++ (".png".data)).drop i))
    (Hp3l : ∀ i, i < (base ++ ("-log_3D".data)).length →
      ¬ (".png".data).isPrefixOf (((base ++ ("-log_3D".data)) ++ (".png".data)).drop i))
    (Hp2l : ∀ i, i < (base ++ ("-log_2D".data)).length →
      ¬ (".png".data).isPrefixOf (((base ++ ("-log_2D".data)) ++ (".png".data)).drop i))
    (Hp3n : ∀ i, i < (base ++ ("_3D".data)).length →
      ¬ (".png".data).isPrefixOf (((base ++ ("_3D".data)) ++ (".png".data)).drop i))
    (Hp2n : ∀ i, i < (base ++ ("_2D".data)).length →
      ¬ (".png".data).isPrefixOf (((base ++ ("_2D".data)) ++ (".png".data)).drop i)) :
    (transformedCsvPath true false (base ++ (".csv".data)) = base ++ ("-std.csv".data) ∧
      loadingsCsvName (transformedCsvPath true false (base ++ (".csv".data))) =
        base ++ ("-std_loadings.csv".data) ∧
      infoTxtName (transformedCsvPath true false (base ++ (".csv".data))) =
        base ++ ("-std_info.txt".data) ∧
      pngPathName true (transformedCsvPath true false (base ++ (".csv".data))) =
        base ++ ("-std_3D.png".data) ∧
      pngPathName false (transformedCsvPath true false (base ++ (".csv".data))) =
        base ++ ("-std_2D.png".data) ∧
      legendPngName (pngPathName true (transformedCsvPath true false (base ++ (".csv".data)))) =
        base ++ ("-std_3D_legend.png".data) ∧
      legendPngName (pngPathName false (transformedCsvPath true false (base ++ (".csv".data)))) =
        base ++ ("-std_2D_legend.png".data)) ∧
    (transformedCsvPath false true (base ++ (".csv".data)) = base ++ ("-log.csv".data) ∧
      loadingsCsvName (transformedCsvPath false true (base ++ (".csv".data))) =
        base ++ ("-log_loadings.csv".data) ∧
      infoTxtName (transformedCsvPath false true (base ++ (".csv".data))) =
        base ++ ("-log_info.txt".data) ∧
      pngPathName true (transformedCsvPath false true (base ++ (".csv".data))) =
        base ++ ("-log_3D.png".data) ∧
      pngPathName false (transformedCsvPath false true (base ++ (".csv".data))) =
        base ++ ("-log_2D.png".data) ∧
      legendPngName (pngPathName true (transformedCsvPath false true (base ++ (".csv".data)))) =
        base ++ ("-log_3D_legend.png".data) ∧
      legendPngName (pngPathName false (transformedCsvPath false true (base ++ (".csv".data)))) =
        base ++ ("-log_2D_legend.png".data)) ∧
    (transformedCsvPath false false (base ++ (".csv".data)) = base ++ (".csv".data) ∧
      loadingsCsvName (base ++ (".csv".data)) = base ++ ("_loadings.csv".data) ∧
      infoTxtName (base ++ (".csv".data)) = base ++ ("_info.txt".data) ∧
      pngPathName true (base ++ (".csv".data)) = base ++ ("_3D.png".data) ∧
      pngPathName false (base ++ (".csv".data)) = base ++ ("_2D.png".data) ∧
      legendPngName (pngPathName true (base ++ (".csv".data))) = base ++ ("_3D_legend.png".data) ∧
      legendPngName (pngPathName false (base ++ (".csv".data))) = base ++ ("_2D_legend.png".data)) := by
  have hstd1 : transformedCsvPath true false (base ++ (".csv".data)) = base ++ ("-std.csv".data) :=
    pyReplace_build (".csv".data) ("-std.csv".data) base (by decide) Hc rfl rfl
  have hstd2 : loadingsCsvName (base ++ ("-std.csv".data)) = base ++ ("-std_loadings.csv".data) :=
    pyReplace_build (".csv".data) ("_loadings.csv".data) (base ++ ("-std".data)) (by decide) Hstd
      (append_split base ("-std".data) (".csv".data) (by decide))
      (append_split base ("-std".data) ("_loadings.csv".data) (by decide))
  have hstd3 : infoTxtName (base ++ ("-std.csv".data)) = base ++ ("-std_info.txt".data) :=
    pyReplace_build (".csv".data) ("_info.txt".data) (base ++ ("-std".data)) (by decide) Hstd
      (append_split base ("-std".data) (".csv".data) (by decide))
      (append_split base ("-std".data) ("_info.txt".data) (by decide))
  have hstd4 : pngPathName true (base ++ ("-std.csv".data)) = base ++ ("-std_3D.png".data) :=
    pyReplace_build (".csv".data) ("_3D.png".data) (base ++ ("-std".data)) (by decide) Hstd
      (append_split base ("-std".data) (".csv".data) (by decide))
      (append_split base ("-std".data) ("_3D.png".data) (by decide))
  have hstd5 : pngPathName false (base ++ ("-std.csv".data)) = base ++ ("-std_2D.png".data) :=
    pyReplace_build (".csv".data) ("_2D.png".data) (base ++ ("-std".data)) (by decide) Hstd
      (append_split base ("-std".data) (".csv".data) (by decide))
      (append_split base ("-std".data) ("_2D.png".data) (by decide))
  have hstd6 : legendPngName (base ++ ("-std_3D.png".data)) = base ++ ("-std_3D_legend.png".data) :=
    pyReplace_build (".png".data) ("_legend.png".data) (base ++ ("-std_3D".data)) (by decide) Hp3s
      (append_split base ("-std_3D".data) (".png".data) (by decide))
      (append_split base ("-std_3D".data) ("_legend.png".data) (by decide))
  have hstd7 : legendPngName (base ++ ("-std_2D.png".data)) = base ++ ("-std_2D_legend.png".data) :=
    pyReplace_build (".png".data) ("_legend.png".data) (base ++ ("-std_2D".data)) (by decide) Hp2s
      (append_split base ("-std_2D".data) (".png".data) (by decide))
      (append_split base ("-std_2D".data) ("_legend.png".data) (by decide))
  have hlog1 : transformedCsvPath false true (base ++ (".csv".data)) = base ++ ("-log.csv".data) :=
    pyReplace_build (".csv".data) ("-log.csv".data) base (by decide) Hc rfl rfl
  have hlog2 : loadingsCsvName (base ++ ("-log.csv".data)) = base ++ ("-log_loadings.csv".data) :=
    pyReplace_build (".csv".data) ("_loadings.csv".data) (base ++ ("-log".data)) (by decide) Hlog
      (append_split base ("-log".data) (".csv".data) (by decide))
      (append_split base ("-log".data) ("_loadings.csv".data) (by decide))
  have hlog3 : infoTxtName (base ++ ("-log.csv".data)) = base ++ ("-log_info.txt".data) :=
    pyReplace_build (".csv".data) ("_info.txt".data) (base ++ ("-log".data)) (by decide) Hlog
      (append_split base ("-log".data) (".csv".data) (by decide))
      (append_split base ("-log".data) ("_info.txt".data) (by decide))
  have hlog4 : pngPathName true (base ++ ("-log.csv".data)) = base ++ ("-log_3D.png".data) :=
    pyReplace_build (".csv".data) ("_3D.png".data) (base ++ ("-log".data)) (by decide) Hlog
      (append_split base ("-log".data) (".csv".data) (by decide))
      (append_split base ("-log".data) ("_3D.png".data) (by decide))
  have hlog5 : pngPathName false (base ++ ("-log.csv".data)) = base ++ ("-log_2D.png".data) :=
    pyReplace_build (".csv".data) ("_2D.png".data) (base ++ ("-log".data)) (by decide) Hlog
      (append_split base ("-log".data) (".csv".data) (by decide))
      (append_split base ("-log".data) ("_2D.png".data) (by decide))
  have hlog6 : legendPngName (base ++ ("-log_3D.png".data)) = base ++ ("-log_3D_legend.png".data) :=
    pyReplace_build (".png".data) ("_legend.png".data) (base ++ ("-log_3D".data)) (by decide) Hp3l
      (append_split base ("-log_3D".data) (".png".data) (by decide))
      (append_split base ("-log_3D".data) ("_legend.png".data) (by decide))
  have hlog7 : legendPngName (base ++ ("-log_2D.png".data)) = base ++ ("-log_2D_legend.png".data) :=
    pyReplace_build (".png".data) ("_legend.png".data) (base ++ ("-log_2D".data)) (by decide) Hp2l
      (append_split base ("-log_2D".data) (".png".data) (by decide))
      (append_split base ("-log_2D".data) ("_legend.png".data) (by decide))
  have hn2 : loadingsCsvName (base ++ (".csv".data)) = base ++ ("_loadings.csv".data) :=
    pyReplace_build (".csv".data) ("_loadings.csv".data) base (by decide) Hc rfl rfl
  have hn3 : infoTxtName (base ++ (".csv".data)) = base ++ ("_info.txt".data) :=
    pyReplace_build (".csv".data) ("_info.txt".data) base (by decide) Hc rfl rfl
  have hn4 : pngPathName true (base ++ (".csv".data)) = base ++ ("_3D.png".data) :=
    pyReplace_build (".csv".data) ("_3D.png".data) base (by decide) Hc rfl rfl
  have hn5 : pngPathName false (base ++ (".csv".data)) = base ++ ("_2D.png".data) :=
    pyReplace_build (".csv".data) ("_2D.png".data) base (by decide) Hc rfl rfl
  have hn6 : legendPngName (base ++ ("_3D.png".data)) = base ++ ("_3D_legend.png".data) :=
    pyReplace_build (".png".data) ("_legend.png".data) (base ++ ("_3D".data)) (by decide) Hp3n
      (append_split base ("_3D".data) (".png".data) (by decide))
      (append_split base ("_3D".data) ("_legend.png".data) (by decide))
  have hn7 : legendPngName (base ++ ("_2D.png".data)) = base ++ ("_2D_legend.png".data) :=
    pyReplace_build (".png".data) ("_legend.png".data) (base ++ ("_2D".data)) (by decide) Hp2n
      (append_split base ("_2D".data) (".png".data) (by decide))
      (append_split base ("_2D".data) ("_legend.png".data) (by decide))
  refine ⟨⟨hstd1, ?_, ?_, ?_, ?_, ?_, ?_⟩, ⟨hlog1, ?_, ?_, ?_, ?_, ?_, ?_⟩,
    rfl, hn2, hn3, hn4, hn5, ?_, ?_⟩
  · rw [hstd1]; exact hstd2
  · rw [hstd1]; exact hstd3
  · rw [hstd1]; exact hstd4
  · rw [hstd1]; exact hstd5
  · rw [hstd1, hstd4]; exact hstd6
  · rw [hstd1, hstd5]; exact hstd7
  · rw [hlog1]; exact hlog2
  · rw [hlog1]; exact hlog3
  · rw [hlog1]; exact hlog4
  · rw [hlog1]; exact hlog5
  · rw [hlog1, hlog4]; exact hlog6
  · rw [hlog1, hlog5]; exact hlog7
  · rw [hn4]; exact hn6
  · rw [hn5]; exact hn7

/-- Witness for C9 at the concrete base filename `data` (input `data.csv`). -/
theorem derived_filenames_witness :
    transformedCsvPath true false ("data".data ++ (".csv".data)) =
      ("data".data) ++ ("-std.csv".data) ∧
    loadingsCsvName (transformedCsvPath true false ("data".data ++ (".csv".data))) =
      ("data".data) ++ ("-std_loadings.csv".data) ∧
    transformedCsvPath false true ("data".data ++ (".csv".data)) =
      ("data".data) ++ ("-log.csv".data) ∧
    transformedCsvPath false false ("data".data ++ (".csv".data)) =
      ("data".data) ++ (".csv".data) := by
  have h := derived_filenames_insert_transform_suffix ("data".data) (by decide) (by decide)
    (by decide) (by decide) (by decide) (by decide) (by decide) (by decide) (by decide)
  exact ⟨h.1.1, h.1.2.1, h.2.1.1, h.2.2.1⟩

/-- C7 counterexample: `makeColor` performs no format validation.  The string
`"1:2:3:4"` (four tokens, not a valid `R:G:B` color) is accepted and yields a
four-component list instead of failing with `InvalidColorFormatError`, and the
out-of-range string `"300:0:0"` yields a component `300/255 > 1`. -/
theorem makeColor_no_format_validation :
    makeColor ("1:2:3:4".data) = some [1 / 255, 2 / 255, 3 / 255, 4 / 255] ∧
      makeColor ("300:0:0".data) = some [300 / 255, 0, 0] ∧
      ¬ ((300 : ℚ) / 255 ≤ 1) := by
  have e1 := pyFloatOfDigits_eq_some ['1'] 1 (by decide) (by decide)
  have e2 := pyFloatOfDigits_eq_some ['2'] 2 (by decide) (by decide)
  have e3 := pyFloatOfDigits_eq_some ['3'] 3 (by decide) (by decide)
  have e4 := pyFloatOfDigits_eq_some ['4'] 4 (by decide) (by decide)
  have e300 := pyFloatOfDigits_eq_some ['3', '0', '0'] 300 (by decide) (by decide)
  have e0 := pyFloatOfDigits_eq_some ['0'] 0 (by decide) (by decide)
  have hs1 : pySplit ':' ("1:2:3:4".data) = [['1'], ['2'], ['3'], ['4']] := by decide
  have hs2 : pySplit ':' ("300:0:0".data) = [['3', '0', '0'], ['0'], ['0']] := by decide
  refine ⟨?_, ?_, by norm_num⟩
  · rw [makeColor, hs1]
    simp [tokensToFloats, e1, e2, e3, e4]
  · rw [makeColor, hs2]
    simp [tokensToFloats, e300, e0]

/-- C7 (amended): on a string of exactly three colon-free tokens that parse as
numbers, `makeColor` returns the three values divided by `255` — in
particular, integer tokens in `[0, 255]` give components in `[0, 1]`, so
`parseColor("255:0:0") = (1.0, 0.0, 0.0)` — but no validation is performed:
other token counts yield lists of other lengths and out-of-range tokens yield
components outside `[0, 1]` (no `InvalidColorFormatError` exists). -/
theorem makeColor_three_tokens (t1 t2 t3 : List Char) (v1 v2 v3 : ℚ)
    (h1 : pyFloatOfDigits t1 = some v1) (h2 : pyFloatOfDigits t2 = some v2)
    (h3 : pyFloatOfDigits t3 = some v3)
    (hs1 : ':' ∉ t1) (hs2 : ':' ∉ t2) (hs3 : ':' ∉ t3) :
    makeColor (t1 ++ ':' :: (t2 ++ ':' :: t3)) = some [v1 / 255, v2 / 255, v3 / 255] ∧
      (0 ≤ v1 / 255 ∧ 0 ≤ v2 / 255 ∧ 0 ≤ v3 / 255) ∧
      (v1 ≤ 255 → v1 / 255 ≤ 1) ∧ (v2 ≤ 255 → v2 / 255 ≤ 1) ∧
      (v3 ≤ 255 → v3 / 255 ≤ 1) := by
  have hsplit : pySplit ':' (t1 ++ ':' :: (t2 ++ ':' :: t3)) = [t1, t2, t3] := by
    rw [pySplit_append ':' t1 _ hs1, pySplit_append ':' t2 _ hs2,
      pySplit_no_sep ':' t3 hs3]
  refine ⟨?_, ⟨?_, ?_, ?_⟩, fun h => ?_, fun h => ?_, fun h => ?_⟩
  · rw [makeColor, hsplit]
    simp [tokensToFloats, h1, h2, h3]
  · exact div_nonneg (pyFloatOfDigits_nonneg t1 v1 h1) (by norm_num)
  · exact div_nonneg (pyFloatOfDigits_nonneg t2 v2 h2) (by norm_num)
  · exact div_nonneg (pyFloatOfDigits_nonneg t3 v3 h3) (by norm_num)
  · exact (div_le_one (by norm_num)).mpr h
  · exact (div_le_one (by norm_num)).mpr h
  · exact (div_le_one (by norm_num)).mpr h

/-- Witness for C7 (amended) on the canonical example `255:0:0`. -/
theorem makeColor_three_tokens_witness :
    makeColor ("255".data ++ ':' :: ("0".data ++ ':' :: ("0".data))) =
      some [255 / 255, 0 / 255, 0 / 255] ∧
      (0 ≤ (255 : ℚ) / 255 ∧ 0 ≤ (0 : ℚ) / 255 ∧ 0 ≤ (0 : ℚ) / 255) ∧
      ((255 : ℚ) ≤ 255 → (255 : ℚ) / 255 ≤ 1) ∧ ((0 : ℚ) ≤ 255 → (0 : ℚ) / 255 ≤ 1) ∧
      ((0 : ℚ) ≤ 255 → (0 : ℚ) / 255 ≤ 1) :=
  makeColor_three_tokens ("255".data) ("0".data) ("0".data) 255 0 0
    pyFloat_255 pyFloat_0 pyFloat_0 (by decide) (by decide) (by decide)

/-- C8: when both the standardization flag and the log flag are set, the
`if/elif` of src lines 34-40 applies only standardization: the run is
identical to a standardization-only run, for the data as well as for the
transformed path, and the log transform is skipped. -/
theorem std_precedence_over_log {n p : ℕ} (m : Matrix (Fin n) (Fin p) ℝ)
    (path : List Char) :
    preprocess true true m = (standardize m).map NpVal.finite ∧
      preprocess true true m = preprocess true false m ∧
      transformedCsvPath true true path = transformedCsvPath true false path :=
  ⟨rfl, rfl, rfl⟩

/-- C10: requesting the 3D projection reads the first three columns of the
score matrix, which has `min(N, P)` columns; the reads fail with an
out-of-bounds access exactly when `min(N, P) < 3`, and all three axes are
reached exactly when at least three components exist. -/
theorem plot3D_requires_three_components (n p : ℕ)
    (X : Matrix (Fin n) (Fin (min n p)) ℝ) :
    (plot3DColumns X = none ↔ min n p < 3) ∧
      ((plot3DColumns X).isSome ↔ 3 ≤ min n p) := by
  refine ⟨plot3DColumns_eq_none_iff X, ?_⟩
  rw [Option.isSome_iff_ne_none, Ne, plot3DColumns_eq_none_iff]
  omega

end PcaSpec
